import Mathlib

/-!
Shallow embedding of the pension-calculation core of the repository
(`src/utils/calculation.ts` and the constant table in `src/constants`):
the series generator `generateInitialData` and the reducer
`calculatePension`.  JavaScript numbers are modelled as exact rationals
(`ℚ`), calendar years and ages as integers, and `Math.round` as
`⌊x + 1/2⌋` (its exact specification).  The sparse `customWages`
dictionary is modelled as a function from year to `Option ℚ`
(`none` = the key is absent).
-/

/-- `Math.round x` of JavaScript: the nearest integer, half-way cases
rounded towards positive infinity. -/
def mathRound (x : ℚ) : ℤ := ⌊x + 1/2⌋

/-- `parseFloat(x.toFixed(4))`: `x` rounded to 4 decimal places
(half-way cases towards positive infinity, as `toFixed` specifies). -/
def toFixed4 (x : ℚ) : ℚ := (mathRound (x * 10000) : ℚ) / 10000

/-- One entry of the yearly series (`PensionDataPoint` in `src/types`).
All numeric fields are JavaScript numbers, hence `ℚ`; `year` is a
calendar year. -/
structure PensionDataPoint where
  year : ℤ
  socialAverageWage : ℚ
  userWage : ℚ
  ratio : ℚ
deriving DecidableEq

/-- The settings object (`PensionSettings` in `src/types`).
`customWages` maps a calendar year to the override wage, when present. -/
structure PensionSettings where
  startYear : ℤ
  startAge : ℤ
  retirementAge : ℤ
  initialSocialWage : ℚ
  socialWageGrowthRate : ℚ
  accountBalance : ℚ
  customWages : ℤ → Option ℚ

/-- The output record (`CalculationResult` in `src/types`).  The three
monthly amounts, `totalAccumulated` and `periodContribution` are
produced by `Math.round`, hence integers. -/
structure CalculationResult where
  monthlyBasicPension : ℤ
  monthlyPersonalPension : ℤ
  totalMonthly : ℤ
  totalAccumulated : ℤ
  averageIndex : ℚ
  basicPensionReplacementRate : ℚ
  periodContribution : ℤ
  monthsDivisor : ℤ
  contributionYears : ℕ
deriving DecidableEq

/-- The fixed annuity-divisor table `PENSION_MONTHS_DIVISOR` of
`src/constants`: `{50: 195, 55: 170, 60: 139, 65: 101}`.  `none` models
a key that is absent from the record. -/
def PENSION_MONTHS_DIVISOR (age : ℤ) : Option ℤ :=
  if age = 50 then some 195
  else if age = 55 then some 170
  else if age = 60 then some 139
  else if age = 65 then some 101
  else none

/-- `DEFAULT_DIVISOR` of `src/constants`. -/
def DEFAULT_DIVISOR : ℤ := 139

/-- The loop body of `generateInitialData`: `n` remaining iterations,
current loop variable `year`, running projection `currentSocialWage`.
Each iteration takes the override when the year is present in
`customWages`, emits the record, and advances the projection by the
growth rate applied to the wage actually used. -/
def genLoop (customWages : ℤ → Option ℚ) (growthRate : ℚ) :
    ℕ → ℤ → ℚ → List PensionDataPoint
  | 0, _, _ => []
  | n + 1, year, currentSocialWage =>
    let wageForYear := (customWages year).getD currentSocialWage
    { year := year,
      socialAverageWage := (mathRound wageForYear : ℚ),
      userWage := (mathRound (wageForYear * 1.0) : ℚ),
      ratio := 1.0 } ::
      genLoop customWages growthRate n (year + 1)
        (wageForYear * (1 + growthRate / 100))

/-- `generateInitialData` of `src/utils/calculation.ts`: an empty list
when `startAge >= retirementAge`, otherwise one record per calendar
year from `startYear` (inclusive) to
`retirementYear = startYear + (retirementAge - startAge)` (exclusive),
seeded with `initialSocialWage`. -/
def generateInitialData (settings : PensionSettings) : List PensionDataPoint :=
  if settings.retirementAge ≤ settings.startAge then []
  else
    genLoop settings.customWages settings.socialWageGrowthRate
      (settings.retirementAge - settings.startAge).toNat
      settings.startYear settings.initialSocialWage

/-- `data.filter(d => d.userWage > 0)` — the effective (non-gap)
records of `calculatePension`. -/
def effectiveData (data : List PensionDataPoint) : List PensionDataPoint :=
  data.filter (fun d => 0 < d.userWage)

/-- `yearsWorked` of `calculatePension`: the number of effective records. -/
def yearsWorked (data : List PensionDataPoint) : ℕ :=
  (effectiveData data).length

/-- `totalRatio` of `calculatePension`: the reduce summing `ratio`
over the effective records. -/
def totalRatio (data : List PensionDataPoint) : ℚ :=
  (effectiveData data).foldl (fun sum item => sum + item.ratio) 0

/-- `averageIndex` of `calculatePension`:
`yearsWorked > 0 ? totalRatio / yearsWorked : 0`. -/
def averageIndex (data : List PensionDataPoint) : ℚ :=
  if 0 < yearsWorked data then totalRatio data / (yearsWorked data : ℚ) else 0

/-- `monthlyBasicPension` (before rounding) of `calculatePension`, as a
function of the series and of `finalSocialWage` (the last record's
`socialAverageWage`). -/
def monthlyBasicPensionVal (data : List PensionDataPoint) (finalSocialWage : ℚ) : ℚ :=
  ((finalSocialWage + finalSocialWage * averageIndex data) / 2) *
    (yearsWorked data : ℚ) * 0.01

/-- `periodContribution` (before rounding) of `calculatePension`: the
reduce over the full series of `userWage * 0.08 * 12`. -/
def periodContributionVal (data : List PensionDataPoint) : ℚ :=
  data.foldl (fun sum item => sum + item.userWage * 0.08 * 12) 0

/-- `totalAccumulated` (before rounding) of `calculatePension`. -/
def totalAccumulatedVal (data : List PensionDataPoint) (settings : PensionSettings) : ℚ :=
  settings.accountBalance + periodContributionVal data

/-- `divisor` of `calculatePension`:
`PENSION_MONTHS_DIVISOR[settings.retirementAge] || DEFAULT_DIVISOR`
(every table value is non-zero, so `||` is exactly `getD`). -/
def divisorVal (settings : PensionSettings) : ℤ :=
  (PENSION_MONTHS_DIVISOR settings.retirementAge).getD DEFAULT_DIVISOR

/-- `monthlyPersonalPension` (before rounding) of `calculatePension`. -/
def monthlyPersonalPensionVal (data : List PensionDataPoint) (settings : PensionSettings) : ℚ :=
  totalAccumulatedVal data settings / (divisorVal settings : ℚ)

/-- The zeroed result returned by `calculatePension` on an empty series
(`monthsDivisor` is the literal `139` of the source). -/
def zeroResult : CalculationResult :=
  { monthlyBasicPension := 0
    monthlyPersonalPension := 0
    totalMonthly := 0
    totalAccumulated := 0
    averageIndex := 0
    basicPensionReplacementRate := 0
    periodContribution := 0
    monthsDivisor := 139
    contributionYears := 0 }

/-- `calculatePension` of `src/utils/calculation.ts`.  `data.getLast?`
is `none` exactly when `data.length === 0`; otherwise `lastYearData` is
`data[data.length - 1]`. -/
def calculatePension (data : List PensionDataPoint) (settings : PensionSettings) :
    CalculationResult :=
  match data.getLast? with
  | none => zeroResult
  | some lastYearData =>
    let finalSocialWage := lastYearData.socialAverageWage
    { monthlyBasicPension := mathRound (monthlyBasicPensionVal data finalSocialWage)
      monthlyPersonalPension := mathRound (monthlyPersonalPensionVal data settings)
      totalMonthly := mathRound (monthlyBasicPensionVal data finalSocialWage +
        monthlyPersonalPensionVal data settings)
      totalAccumulated := mathRound (totalAccumulatedVal data settings)
      averageIndex := toFixed4 (averageIndex data)
      basicPensionReplacementRate :=
        if 0 < finalSocialWage then
          monthlyBasicPensionVal data finalSocialWage / finalSocialWage
        else 0
      periodContribution := mathRound (periodContributionVal data)
      monthsDivisor := divisorVal settings
      contributionYears := yearsWorked data }

/-- The running projection `currentSocialWage` at the start of loop
iteration `i` of `generateInitialData` (iteration `i` handles calendar
year `startYear + i`). -/
def currentWageAt (s : PensionSettings) : ℕ → ℚ
  | 0 => s.initialSocialWage
  | n + 1 =>
    ((s.customWages (s.startYear + n)).getD (currentWageAt s n)) *
      (1 + s.socialWageGrowthRate / 100)

/-- `wageForYear` in iteration `i` of `generateInitialData`: the
override when present, the running projection otherwise. -/
def wageUsedAt (s : PensionSettings) (i : ℕ) : ℚ :=
  (s.customWages (s.startYear + i)).getD (currentWageAt s i)

/-- The record emitted by iteration `i` of `generateInitialData`. -/
def recordAt (s : PensionSettings) (i : ℕ) : PensionDataPoint :=
  { year := s.startYear + i
    socialAverageWage := (mathRound (wageUsedAt s i) : ℚ)
    userWage := (mathRound (wageUsedAt s i * 1.0) : ℚ)
    ratio := 1.0 }

/-- A concrete settings value (the repository's `DEFAULT_SETTINGS`). -/
def sEx : PensionSettings :=
  { startYear := 2024
    startAge := 25
    retirementAge := 60
    initialSocialWage := 8000
    socialWageGrowthRate := 4.0
    accountBalance := 0
    customWages := fun _ => none }

/-- A degenerate settings value: `startAge ≥ retirementAge`. -/
def sDeg : PensionSettings := { sEx with retirementAge := 25 }

/-- Settings for the override-propagation scenario of C4:
`customWages` maps `startYear + 1 = 2025` to `9000` and nothing else. -/
def settingsC4 : PensionSettings :=
  { sEx with customWages := fun y => if y = 2025 then some 9000 else none }

/-- Settings with a retirement age absent from the divisor table. -/
def s72 : PensionSettings := { sEx with retirementAge := 72 }

/-- Settings that differ from `sEx` in every field `calculate` does not
read (`startYear`, `startAge`, `initialSocialWage`,
`socialWageGrowthRate`, `customWages`) while agreeing on
`accountBalance` and `retirementAge`. -/
def sOther : PensionSettings :=
  { startYear := 1999
    startAge := 30
    retirementAge := 60
    initialSocialWage := 12345
    socialWageGrowthRate := 7.5
    accountBalance := 0
    customWages := fun y => if y = 2000 then some 5000 else none }

/-- Series fixture: one effective year then a gap year as the last
record (`userWage = 0`). -/
def dataC1 : List PensionDataPoint :=
  [{ year := 2024, socialAverageWage := 100, userWage := 100, ratio := 1.0 },
   { year := 2025, socialAverageWage := 110, userWage := 0, ratio := 0 }]

/-- Series fixture for gap-year semantics: one gap year between two
effective years. -/
def dataC2 : List PensionDataPoint :=
  [{ year := 2024, socialAverageWage := 100, userWage := 100, ratio := 1.0 },
   { year := 2025, socialAverageWage := 105, userWage := 0, ratio := 0 },
   { year := 2026, socialAverageWage := 110, userWage := 220, ratio := 2.0 }]

/-- Series fixture whose last (and only) record has zero wages. -/
def dataC8 : List PensionDataPoint :=
  [{ year := 2024, socialAverageWage := 0, userWage := 0, ratio := 0 }]

/-- Series fixture for the rounding anomaly: pre-rounding basic pension
`0.4`, pre-rounding personal pension `38.4 / 139`. -/
def dataC10 : List PensionDataPoint :=
  [{ year := 2024, socialAverageWage := 40, userWage := 40, ratio := 1.0 }]

lemma genLoop_eq (s : PensionSettings) :
    ∀ (n k : ℕ),
      genLoop s.customWages s.socialWageGrowthRate n (s.startYear + (k : ℤ))
          (currentWageAt s k)
        = (List.range n).map (fun i => recordAt s (k + i)) := by
  intro n
  induction n with
  | zero => intro k; simp [genLoop]
  | succ n ih =>
    intro k
    rw [List.range_succ_eq_map, List.map_cons, List.map_map, genLoop]
    congr 1
    have hy : s.startYear + (k : ℤ) + 1 = s.startYear + ((k + 1 : ℕ) : ℤ) := by
      push_cast; ring
    have hw : (s.customWages (s.startYear + (k : ℤ))).getD (currentWageAt s k) *
        (1 + s.socialWageGrowthRate / 100) = currentWageAt s (k + 1) := rfl
    rw [hy, hw, ih (k + 1)]
    refine List.map_congr_left ?_
    intro i _
    simp only [Function.comp]
    congr 1
    omega

lemma generateInitialData_eq (s : PensionSettings) :
    generateInitialData s
      = (List.range (s.retirementAge - s.startAge).toNat).map (recordAt s) := by
  unfold generateInitialData
  by_cases h : s.retirementAge ≤ s.startAge
  · rw [if_pos h]
    have : (s.retirementAge - s.startAge).toNat = 0 := by omega
    simp [this]
  · rw [if_neg h]
    have h0 : s.startYear = s.startYear + ((0 : ℕ) : ℤ) := by simp
    have hw : s.initialSocialWage = currentWageAt s 0 := rfl
    rw [h0, hw, genLoop_eq s _ 0]
    simp

lemma generate_get (s : PensionSettings) (i : ℕ)
    (h : i < (generateInitialData s).length) :
    (generateInitialData s).get ⟨i, h⟩ = recordAt s i := by
  rw [List.get_eq_getElem]
  simp only [generateInitialData_eq]
  have h2 : i < (s.retirementAge - s.startAge).toNat := by
    have := h
    rw [generateInitialData_eq, List.length_map, List.length_range] at this
    exact this
  simp [List.getElem_map, List.getElem_range]

lemma calculatePension_eq_of_getLast (data : List PensionDataPoint)
    (settings : PensionSettings) (last : PensionDataPoint)
    (h : data.getLast? = some last) :
    calculatePension data settings =
      { monthlyBasicPension := mathRound (monthlyBasicPensionVal data last.socialAverageWage)
        monthlyPersonalPension := mathRound (monthlyPersonalPensionVal data settings)
        totalMonthly := mathRound (monthlyBasicPensionVal data last.socialAverageWage +
          monthlyPersonalPensionVal data settings)
        totalAccumulated := mathRound (totalAccumulatedVal data settings)
        averageIndex := toFixed4 (averageIndex data)
        basicPensionReplacementRate :=
          if 0 < last.socialAverageWage then
            monthlyBasicPensionVal data last.socialAverageWage / last.socialAverageWage
          else 0
        periodContribution := mathRound (periodContributionVal data)
        monthsDivisor := divisorVal settings
        contributionYears := yearsWorked data } := by
  unfold calculatePension
  rw [h]

lemma foldl_add_eq (f : PensionDataPoint → ℚ) :
    ∀ (l : List PensionDataPoint) (a : ℚ),
      l.foldl (fun sum item => sum + f item) a = a + (l.map f).sum := by
  intro l
  induction l with
  | nil => intro a; simp
  | cons x xs ih => intro a; simp [List.foldl_cons, ih]; ring

/-- C3: with `retirementAge > startAge`, `generate` returns exactly
`retirementAge - startAge` records whose years ascend contiguously from
`startYear`; with `startAge ≥ retirementAge` it returns `[]`. -/
theorem generate_length_spec (s : PensionSettings) :
    (s.startAge < s.retirementAge →
      ((generateInitialData s).length : ℤ) = s.retirementAge - s.startAge ∧
      ∀ (i : ℕ) (h : i < (generateInitialData s).length),
        ((generateInitialData s).get ⟨i, h⟩).year = s.startYear + (i : ℤ)) ∧
    (s.startAge ≥ s.retirementAge → generateInitialData s = []) := by
  constructor
  · intro h
    constructor
    · rw [generateInitialData_eq, List.length_map, List.length_range]
      omega
    · intro i hi
      rw [generate_get]
      rfl
  · intro h
    rw [generateInitialData_eq]
    have h0 : (s.retirementAge - s.startAge).toNat = 0 := by omega
    simp [h0]

theorem generate_length_spec_witness :
    sEx.startAge < sEx.retirementAge ∧
    ((generateInitialData sEx).length : ℤ) = 35 ∧
    sDeg.startAge ≥ sDeg.retirementAge ∧
    generateInitialData sDeg = [] := by
  refine ⟨by norm_num [sEx], ?_, by norm_num [sDeg, sEx],
    (generate_length_spec sDeg).2 (by norm_num [sDeg, sEx])⟩
  have := ((generate_length_spec sEx).1 (by norm_num [sEx])).1
  simpa [sEx] using this

/-- C5: each generated record's `socialAverageWage` is the rounded
`customWages` override when one exists for its year, and the rounded
running projection otherwise; and `userWage = socialAverageWage`,
`ratio = 1.0`. -/
theorem generate_record_fields (s : PensionSettings) (i : ℕ)
    (h : i < (generateInitialData s).length) :
    (∀ w, s.customWages (((generateInitialData s).get ⟨i, h⟩).year) = some w →
      ((generateInitialData s).get ⟨i, h⟩).socialAverageWage = (mathRound w : ℚ)) ∧
    (s.customWages (((generateInitialData s).get ⟨i, h⟩).year) = none →
      ((generateInitialData s).get ⟨i, h⟩).socialAverageWage
        = (mathRound (currentWageAt s i) : ℚ)) ∧
    ((generateInitialData s).get ⟨i, h⟩).userWage
      = ((generateInitialData s).get ⟨i, h⟩).socialAverageWage ∧
    ((generateInitialData s).get ⟨i, h⟩).ratio = 1.0 := by
  rw [generate_get]
  have hy : (recordAt s i).year = s.startYear + (i : ℤ) := rfl
  refine ⟨?_, ?_, ?_, rfl⟩
  · intro w hw
    rw [hy] at hw
    simp [recordAt, wageUsedAt, hw]
  · intro hw
    rw [hy] at hw
    simp [recordAt, wageUsedAt, hw]
  · have h1 : wageUsedAt s i * 1.0 = wageUsedAt s i := by norm_num
    simp [recordAt, h1]

theorem generate_record_fields_witness :
    0 < (generateInitialData sEx).length ∧
    ∀ (h : 0 < (generateInitialData sEx).length),
      sEx.customWages (((generateInitialData sEx).get ⟨0, h⟩).year) = none ∧
      ((generateInitialData sEx).get ⟨0, h⟩).socialAverageWage = 8000 ∧
      ((generateInitialData sEx).get ⟨0, h⟩).userWage = 8000 ∧
      ((generateInitialData sEx).get ⟨0, h⟩).ratio = 1.0 := by
  have hlen : 0 < (generateInitialData sEx).length := by
    rw [generateInitialData_eq, List.length_map, List.length_range]
    norm_num [sEx]
  refine ⟨hlen, fun h => ⟨rfl, ?_, ?_, (generate_record_fields sEx 0 h).2.2.2⟩⟩
  · have := (generate_record_fields sEx 0 h).2.1 rfl
    rw [this]
    norm_num [currentWageAt, sEx, mathRound]
  · have huw := (generate_record_fields sEx 0 h).2.2.1
    rw [huw]
    have := (generate_record_fields sEx 0 h).2.1 rfl
    rw [this]
    norm_num [currentWageAt, sEx, mathRound]

/-- C4: the projection advances from the wage actually used (override
included): `currentWageAt (n+1) = wageUsedAt n * (1 + rate/100)`.
Concretely, with growth 4.0 and an override `2025 ↦ 9000`, the record
for 2026 carries `round (9000 * 1.04) = 9360`, not the baseline
`round (8000 * 1.04 * 1.04) = 8653`. -/
theorem growth_compounds_on_override :
    (∀ (s : PensionSettings) (n : ℕ),
      currentWageAt s (n + 1) = wageUsedAt s n * (1 + s.socialWageGrowthRate / 100)) ∧
    (generateInitialData settingsC4).get? 2
      = some { year := 2026, socialAverageWage := 9360, userWage := 9360, ratio := 1.0 } ∧
    mathRound ((9000 : ℚ) * (1 + 4.0 / 100)) = 9360 ∧
    mathRound ((8000 : ℚ) * (1 + 4.0 / 100) * (1 + 4.0 / 100)) = 8653 ∧
    (9360 : ℤ) ≠ 8653 := by
  have step : ∀ n : ℕ, currentWageAt settingsC4 (n + 1)
      = (settingsC4.customWages (settingsC4.startYear + (n : ℤ))).getD
          (currentWageAt settingsC4 n) * (1 + settingsC4.socialWageGrowthRate / 100) :=
    fun n => rfl
  have e1 : settingsC4.customWages (settingsC4.startYear + ((1 : ℕ) : ℤ)) = some 9000 := by
    norm_num [settingsC4, sEx]
  have e2 : settingsC4.customWages (settingsC4.startYear + ((2 : ℕ) : ℤ)) = none := by
    norm_num [settingsC4, sEx]
  have c2 := step 1
  rw [e1] at c2
  norm_num at c2
  have w2 : wageUsedAt settingsC4 2
      = 9000 * (1 + settingsC4.socialWageGrowthRate / 100) := by
    unfold wageUsedAt
    rw [e2, Option.getD_none, c2]
  refine ⟨fun s n => rfl, ?_, by norm_num [mathRound], by norm_num [mathRound], by norm_num⟩
  have hlen : 2 < (settingsC4.retirementAge - settingsC4.startAge).toNat := by
    norm_num [settingsC4, sEx]
  rw [generateInitialData_eq, List.get?_map]
  rw [List.get?_range hlen]
  have hr : settingsC4.socialWageGrowthRate = 4.0 := rfl
  simp only [Option.map_some']
  congr 1
  unfold recordAt
  rw [w2, hr]
  have hy : settingsC4.startYear + ((2 : ℕ) : ℤ) = 2026 := by norm_num [settingsC4, sEx]
  rw [hy]
  norm_num [mathRound]

theorem growth_compounds_on_override_witness :
    currentWageAt settingsC4 1
      = wageUsedAt settingsC4 0 * (1 + settingsC4.socialWageGrowthRate / 100) :=
  growth_compounds_on_override.1 settingsC4 0

/-- C1: `monthlyBasicPension` is the rounding of
`((finalSocialWage + finalSocialWage * averageIndex) / 2) * contributionYears * 0.01`,
where `finalSocialWage` is the last record's `socialAverageWage`
(gap year or not — `last.userWage` is unconstrained). -/
theorem basicPension_formula (data : List PensionDataPoint)
    (settings : PensionSettings) (last : PensionDataPoint)
    (h : data.getLast? = some last) :
    (calculatePension data settings).monthlyBasicPension
      = mathRound (((last.socialAverageWage + last.socialAverageWage * averageIndex data) / 2)
          * (yearsWorked data : ℚ) * 0.01) := by
  rw [calculatePension_eq_of_getLast data settings last h]
  rfl

theorem basicPension_formula_witness :
    dataC1.getLast? = some { year := 2025, socialAverageWage := 110, userWage := 0, ratio := 0 } ∧
    (calculatePension dataC1 sEx).monthlyBasicPension = 1 := by
  refine ⟨rfl, ?_⟩
  rw [basicPension_formula dataC1 sEx
    { year := 2025, socialAverageWage := 110, userWage := 0, ratio := 0 } rfl]
  norm_num [averageIndex, yearsWorked, totalRatio, effectiveData, dataC1,
    List.filter, mathRound]

/-- C2: records with `userWage = 0` are gap years — `contributionYears`
counts exactly the records with `userWage > 0`, `averageIndex` is the
mean of `ratio` over those records alone (`0` when there are none), and
`periodContribution` sums `userWage * 0.08 * 12` over the full series. -/
theorem gapYear_semantics (data : List PensionDataPoint)
    (settings : PensionSettings) (h : data ≠ []) :
    (calculatePension data settings).contributionYears
      = (data.filter (fun d => 0 < d.userWage)).length ∧
    averageIndex data
      = (if (data.filter (fun d => 0 < d.userWage)).length = 0 then 0
         else ((data.filter (fun d => 0 < d.userWage)).map (fun d => d.ratio)).sum
                / ((data.filter (fun d => 0 < d.userWage)).length : ℚ)) ∧
    periodContributionVal data
      = (data.map (fun d => d.userWage * 0.08 * 12)).sum := by
  refine ⟨?_, ?_, ?_⟩
  · obtain ⟨last, hl⟩ := List.getLast?_isSome.2 h |> Option.isSome_iff_exists.1
    rw [calculatePension_eq_of_getLast data settings last hl]
    rfl
  · unfold averageIndex totalRatio yearsWorked effectiveData
    rw [foldl_add_eq (fun d => d.ratio)]
    rcases Nat.eq_zero_or_pos (data.filter (fun d => 0 < d.userWage)).length with h0 | h0
    · simp [h0]
    · rw [if_pos h0, if_neg (by omega)]
      simp
  · unfold periodContributionVal
    rw [foldl_add_eq (fun d => d.userWage * 0.08 * 12)]
    simp

theorem gapYear_semantics_witness :
    dataC2 ≠ [] ∧
    (calculatePension dataC2 sEx).contributionYears = 2 ∧
    averageIndex dataC2 = 3 / 2 ∧
    periodContributionVal dataC2 = 1536 / 5 := by
  have hne : dataC2 ≠ [] := by simp [dataC2]
  obtain ⟨h1, h2, h3⟩ := gapYear_semantics dataC2 sEx hne
  refine ⟨hne, ?_, ?_, ?_⟩
  · rw [h1]; norm_num [dataC2, List.filter]
  · rw [h2]; norm_num [dataC2, List.filter]
  · rw [h3]; norm_num [dataC2]

/-- C6: `monthsDivisor` is the exact-match lookup of `retirementAge` in
the fixed table `{50: 195, 55: 170, 60: 139, 65: 101}` with default
`139`; no other age is in the table, so e.g. `72` falls back to `139`. -/
theorem divisor_lookup :
    (∀ (data : List PensionDataPoint) (settings : PensionSettings), data ≠ [] →
      (calculatePension data settings).monthsDivisor
        = (PENSION_MONTHS_DIVISOR settings.retirementAge).getD DEFAULT_DIVISOR) ∧
    PENSION_MONTHS_DIVISOR 50 = some 195 ∧
    PENSION_MONTHS_DIVISOR 55 = some 170 ∧
    PENSION_MONTHS_DIVISOR 60 = some 139 ∧
    PENSION_MONTHS_DIVISOR 65 = some 101 ∧
    (∀ a : ℤ, a ≠ 50 → a ≠ 55 → a ≠ 60 → a ≠ 65 → PENSION_MONTHS_DIVISOR a = none) ∧
    DEFAULT_DIVISOR = 139 := by
  refine ⟨?_, rfl, rfl, rfl, rfl, ?_, rfl⟩
  · intro data settings h
    obtain ⟨last, hl⟩ := List.getLast?_isSome.2 h |> Option.isSome_iff_exists.1
    rw [calculatePension_eq_of_getLast data settings last hl]
    rfl
  · intro a h50 h55 h60 h65
    simp [PENSION_MONTHS_DIVISOR, h50, h55, h60, h65]

theorem divisor_lookup_witness :
    dataC1 ≠ [] ∧
    (calculatePension dataC1 s72).monthsDivisor = 139 ∧
    (calculatePension dataC1 sEx).monthsDivisor = 139 ∧
    PENSION_MONTHS_DIVISOR 72 = none := by
  have hne : dataC1 ≠ [] := by simp [dataC1]
  refine ⟨hne, ?_, ?_, divisor_lookup.2.2.2.2.2.1 72 (by norm_num) (by norm_num)
    (by norm_num) (by norm_num)⟩
  · rw [divisor_lookup.1 dataC1 s72 hne]; rfl
  · rw [divisor_lookup.1 dataC1 sEx hne]; rfl

/-- C7: on the empty series `calculate` returns the all-zero result
with `monthsDivisor = 139`, whatever the settings (even when
`retirementAge` is a key of the divisor table). -/
theorem empty_series_result (settings : PensionSettings) :
    calculatePension [] settings
      = { monthlyBasicPension := 0
          monthlyPersonalPension := 0
          totalMonthly := 0
          totalAccumulated := 0
          averageIndex := 0
          basicPensionReplacementRate := 0
          periodContribution := 0
          monthsDivisor := 139
          contributionYears := 0 } := rfl

theorem empty_series_result_witness :
    calculatePension [] { sEx with retirementAge := 55 }
      = { monthlyBasicPension := 0
          monthlyPersonalPension := 0
          totalMonthly := 0
          totalAccumulated := 0
          averageIndex := 0
          basicPensionReplacementRate := 0
          periodContribution := 0
          monthsDivisor := 139
          contributionYears := 0 } :=
  empty_series_result { sEx with retirementAge := 55 }

/-- C8: `basicPensionReplacementRate` is the unrounded quotient of the
pre-rounding basic pension by the last record's `socialAverageWage`
when that wage is positive, and exactly `0` otherwise. -/
theorem replacement_rate_guard (data : List PensionDataPoint)
    (settings : PensionSettings) (last : PensionDataPoint)
    (h : data.getLast? = some last) :
    (0 < last.socialAverageWage →
      (calculatePension data settings).basicPensionReplacementRate
        = monthlyBasicPensionVal data last.socialAverageWage / last.socialAverageWage) ∧
    (last.socialAverageWage ≤ 0 →
      (calculatePension data settings).basicPensionReplacementRate = 0) := by
  rw [calculatePension_eq_of_getLast data settings last h]
  constructor
  · intro hpos
    simp [hpos]
  · intro hnp
    simp [not_lt.2 hnp]

theorem replacement_rate_guard_witness :
    dataC8.getLast? = some { year := 2024, socialAverageWage := 0, userWage := 0, ratio := 0 } ∧
    (calculatePension dataC8 sEx).basicPensionReplacementRate = 0 ∧
    (calculatePension dataC1 sEx).basicPensionReplacementRate = 1 / 100 := by
  refine ⟨rfl, ?_, ?_⟩
  · exact (replacement_rate_guard dataC8 sEx
      { year := 2024, socialAverageWage := 0, userWage := 0, ratio := 0 } rfl).2 (by norm_num)
  · rw [(replacement_rate_guard dataC1 sEx
      { year := 2025, socialAverageWage := 110, userWage := 0, ratio := 0 } rfl).1 (by norm_num)]
    norm_num [monthlyBasicPensionVal, averageIndex, yearsWorked, totalRatio,
      effectiveData, dataC1, List.filter]

/-- C9: `calculate` reads only `accountBalance` and `retirementAge`
from the settings — two settings agreeing on those two fields yield
identical results on every series. -/
theorem calculate_depends_only_on (data : List PensionDataPoint)
    (s1 s2 : PensionSettings)
    (hb : s1.accountBalance = s2.accountBalance)
    (hr : s1.retirementAge = s2.retirementAge) :
    calculatePension data s1 = calculatePension data s2 := by
  have h1 : totalAccumulatedVal data s1 = totalAccumulatedVal data s2 := by
    unfold totalAccumulatedVal
    rw [hb]
  have h2 : divisorVal s1 = divisorVal s2 := by
    unfold divisorVal
    rw [hr]
  have h3 : monthlyPersonalPensionVal data s1 = monthlyPersonalPensionVal data s2 := by
    unfold monthlyPersonalPensionVal
    rw [h1, h2]
  unfold calculatePension
  cases data.getLast? with
  | none => rfl
  | some last => rw [h1, h2, h3]

theorem calculate_depends_only_on_witness :
    sEx.accountBalance = sOther.accountBalance ∧
    sEx.retirementAge = sOther.retirementAge ∧
    calculatePension dataC2 sEx = calculatePension dataC2 sOther := by
  exact ⟨rfl, rfl, calculate_depends_only_on dataC2 sEx sOther rfl rfl⟩

/-- C10: `totalMonthly` rounds the sum of the two pre-rounding pension
values (and `monthlyPersonalPension` rounds `totalAccumulated` divided
by the divisor), so on `dataC10` it exceeds the sum of the two
separately rounded output fields by 1. -/
theorem totalMonthly_rounding :
    (∀ (data : List PensionDataPoint) (settings : PensionSettings)
      (last : PensionDataPoint), data.getLast? = some last →
      (calculatePension data settings).totalMonthly
        = mathRound (monthlyBasicPensionVal data last.socialAverageWage
            + monthlyPersonalPensionVal data settings) ∧
      (calculatePension data settings).monthlyPersonalPension
        = mathRound (totalAccumulatedVal data settings / (divisorVal settings : ℚ))) ∧
    (calculatePension dataC10 sEx).totalMonthly
      = (calculatePension dataC10 sEx).monthlyBasicPension
          + (calculatePension dataC10 sEx).monthlyPersonalPension + 1 := by
  have huniv : ∀ (data : List PensionDataPoint) (settings : PensionSettings)
      (last : PensionDataPoint), data.getLast? = some last →
      (calculatePension data settings).totalMonthly
        = mathRound (monthlyBasicPensionVal data last.socialAverageWage
            + monthlyPersonalPensionVal data settings) ∧
      (calculatePension data settings).monthlyPersonalPension
        = mathRound (totalAccumulatedVal data settings / (divisorVal settings : ℚ)) := by
    intro data settings last h
    rw [calculatePension_eq_of_getLast data settings last h]
    exact ⟨rfl, rfl⟩
  refine ⟨huniv, ?_⟩
  have hlast : dataC10.getLast?
      = some { year := 2024, socialAverageWage := 40, userWage := 40, ratio := 1.0 } := rfl
  rw [calculatePension_eq_of_getLast dataC10 sEx _ hlast]
  have hbasic : monthlyBasicPensionVal dataC10 (40 : ℚ) = 2 / 5 := by
    norm_num [monthlyBasicPensionVal, averageIndex, yearsWorked, totalRatio,
      effectiveData, dataC10, List.filter]
  have hacc : totalAccumulatedVal dataC10 sEx = 192 / 5 := by
    norm_num [totalAccumulatedVal, periodContributionVal, dataC10, sEx]
  have hdiv : divisorVal sEx = 139 := rfl
  have hpers : monthlyPersonalPensionVal dataC10 sEx = 192 / 695 := by
    rw [monthlyPersonalPensionVal, hacc, hdiv]
    norm_num
  simp only [hbasic, hpers]
  norm_num [mathRound]

theorem totalMonthly_rounding_witness :
    dataC10.getLast?
      = some { year := 2024, socialAverageWage := 40, userWage := 40, ratio := 1.0 } ∧
    (calculatePension dataC10 sEx).totalMonthly = 1 := by
  refine ⟨rfl, ?_⟩
  rw [(totalMonthly_rounding.1 dataC10 sEx
    { year := 2024, socialAverageWage := 40, userWage := 40, ratio := 1.0 } rfl).1]
  have hbasic : monthlyBasicPensionVal dataC10 (40 : ℚ) = 2 / 5 := by
    norm_num [monthlyBasicPensionVal, averageIndex, yearsWorked, totalRatio,
      effectiveData, dataC10, List.filter]
  have hpers : monthlyPersonalPensionVal dataC10 sEx = 192 / 695 := by
    rw [monthlyPersonalPensionVal]
    have hacc : totalAccumulatedVal dataC10 sEx = 192 / 5 := by
      norm_num [totalAccumulatedVal, periodContributionVal, dataC10, sEx]
    rw [hacc]
    norm_num [divisorVal, PENSION_MONTHS_DIVISOR, DEFAULT_DIVISOR, sEx]
  rw [hbasic, hpers]
  norm_num [mathRound]
